import Mathlib

/-!
Verification development for the `mygration` migration engine
(`src/cloud/migrate.js` plus its constants module).

The JavaScript source is shallowly embedded below:

* the constants module becomes plain Lean constants;
* a Parse object is a `PObject` (identifier, migration status, dirty keys,
  and the `existed()` flag the host reports in afterSave);
* promise chains that can reject become `Except String`;
* the composed triggers produced by `getBeforeSave` / `getAfterSave` /
  `getBeforeDelete` become pure functions that also report how often the
  user handlers were invoked;
* the import job (`getImportJob` / `_migrateClass`) runs over an explicit
  store, a list of records, with recursion fed by fuel;
* the loose JavaScript comparison `Date.now() > deadline` is embedded by
  `jsGt` over `JsVal`, so that the source's `undefined` deadline argument
  and string-valued deadline arithmetic keep their JavaScript meaning.
-/

set_option autoImplicit false

/-! ## Constants (`src/cloud/consts.js`) -/

/-- Key used to track the state machine for the migrator. -/
def MIGRATION_KEY : String := "migrationStatus"

/-- The object is already migrated / is in a stable state. -/
def IS_MIGRATED : Nat := 1

/-- Stable state reached by the second pass over a brand-new object. -/
def FINISHED_SECOND_PASS : Nat := 2

/-- Set after a new object is created so a second pass can migrate it. -/
def NEEDS_SECOND_PASS : Nat := 3

/-- The number of records queried at once by the migration job. -/
def BATCH_SIZE : Nat := 1000

/-- `14.5 * 60 * 1000` milliseconds (`migrate.js` line 52). -/
def MAXIMUM_DURATION : Nat := 870000

/-! ## JavaScript values used by the deadline logic -/

/-- The JavaScript values that can reach the comparison
`Date.now() > deadline` in `_migrateClass`: `undefined` (argument not
passed), a number, or a string. -/
inductive JsVal where
  | undef
  | num (n : Int)
  | str (s : String)
  deriving Repr, DecidableEq

/-- The decimal value of one character, when it is a digit. -/
def digitValue (c : Char) : Option Nat :=
  if '0' ≤ c ∧ c ≤ '9' then some (c.toNat - '0'.toNat) else none

/-- Reads a decimal numeral; any non-digit character means failure. -/
def natOfChars : List Char → Nat → Option Nat
  | [], acc => some acc
  | c :: cs, acc =>
    match digitValue c with
    | none => none
    | some d => natOfChars cs (acc * 10 + d)

/-- JavaScript `ToNumber` of a string, restricted to optionally signed
decimal numerals: the empty string is 0 and any other non-numeral string
is `NaN` (`none`).  The full JS coercion also admits whitespace, floats
and hex, but the only strings this program ever compares are numerals or
date-strings, for which this restriction agrees with JS. -/
def strToNumber (s : String) : Option Int :=
  match s.data with
  | [] => some 0
  | '-' :: cs =>
    if cs = [] then none else (natOfChars cs 0).map (fun n => -(n : Int))
  | cs => (natOfChars cs 0).map (fun n => (n : Int))

/-- JavaScript `ToNumber` restricted to the values above; `none` stands
for `NaN`.  `undefined` coerces to `NaN`; a string that is not a numeral
coerces to `NaN`. -/
def jsToNumber : JsVal → Option Int
  | JsVal.undef => none
  | JsVal.num n => some n
  | JsVal.str s => strToNumber s

/-- The JavaScript comparison `n > v`: any comparison involving `NaN`
is false. -/
def jsGt (n : Int) (v : JsVal) : Bool :=
  match jsToNumber v with
  | none => false
  | some m => n > m

/-- `new Date() + MAXIMUM_DURATION` (`migrate.js` line 234).  Adding a
number to a `Date` object in JavaScript stringifies the date and
concatenates, so the "deadline" is a non-numeric string.  The job never
passes this value on: the call on line 250 omits the third argument of
`_migrateClass`, so inside the sweep `deadline` is `undefined`. -/
def jobDeadline (dateStr : String) : JsVal :=
  JsVal.str (dateStr ++ toString MAXIMUM_DURATION)

/-! ## Parse objects and trigger requests -/

/-- The slice of a Parse object that `migrate.js` reads and writes:
`objectId` (`none` while `isNew()`), the `migrationStatus` field (`none`
when absent), the dirty-key list reported by `dirtyKeys()`, and the
`existed()` flag the host reports in `afterSave`. -/
structure PObject where
  objectId : Option Nat
  migrationStatus : Option Nat
  dirtyKeys : List String
  existed : Bool
  deriving Repr, DecidableEq

/-- `obj.isNew()`: the object has not been assigned an identifier yet. -/
def PObject.isNew (o : PObject) : Bool := o.objectId.isNone

/-- `obj.set(MIGRATION_KEY, v)`: writes the status field and marks it
dirty. -/
def PObject.setStatus (o : PObject) (v : Nat) : PObject :=
  { o with
    migrationStatus := some v,
    dirtyKeys :=
      if MIGRATION_KEY ∈ o.dirtyKeys then o.dirtyKeys
      else o.dirtyKeys ++ [MIGRATION_KEY] }

/-- A value a `before*` handler's promise can resolve to: a Parse object
(anything satisfying `isParseObject`, i.e. carrying `_applyOpSet`) or any
other value. -/
inductive JSVal where
  | pobj (o : PObject)
  | other
  deriving Repr, DecidableEq

/-- `isParseObject` (`migrate.js` line 42). -/
def isParseObject : JSVal → Bool
  | JSVal.pobj _ => true
  | JSVal.other => false

/-- The second argument handed to user `before*` handlers.  Both methods
throw unconditionally; a throw inside a promise chain is a rejection,
hence `Except.error`. -/
structure PseudoResponse where
  success : Unit → Except String JSVal
  error : Unit → Except String JSVal

/-- `ThisIsNotAResponseObject` (`migrate.js` lines 53-60), including the
source's typo in the `error` message. -/
def ThisIsNotAResponseObject : PseudoResponse :=
  { success := fun _ =>
      Except.error ("The migration tool expects you to return promises, not use callbacks"),
    error := fun _ =>
      Except.error ("The migration tool expecgts you to return promises, not use callbacks") }

/-- A user `beforeSave` / `beforeDelete` handler: takes the request's
object and the pseudo response object, and returns a promise. -/
abbrev BeforeHandler := PObject → PseudoResponse → Except String JSVal

/-- A user `migrateObject` / `migrateDelete` handler. -/
abbrev MigrateHandler := PObject → Except String Unit

/-- A user `afterSave` handler. -/
abbrev AfterSaveHandler := PObject → Except String Unit

/-! ## The composed beforeSave trigger (`getBeforeSave`, lines 126-179) -/

/-- The skip test on lines 137-139: the only dirty key is
`MIGRATION_KEY`, i.e. this save is the engine's own bookkeeping write. -/
def bsSkipForBookkeeping (obj : PObject) : Bool :=
  obj.dirtyKeys.length == 1 && obj.dirtyKeys.head? == some MIGRATION_KEY

/-- First step of the composed beforeSave: run the user handler unless it
is absent or the write is bookkeeping-only.  Returns the promise outcome
together with the number of handler invocations. -/
def bsStep1 (beforeSave : Option BeforeHandler) (obj : PObject) :
    Except String JSVal × Nat :=
  match beforeSave with
  | none => (Except.ok JSVal.other, 0)
  | some h =>
    if bsSkipForBookkeeping obj then (Except.ok JSVal.other, 0)
    else (h obj ThisIsNotAResponseObject, 1)

/-- Line 146: a Parse object resolved by the user handler replaces the
request's object. -/
def resolveWorking (obj : PObject) : JSVal → PObject
  | JSVal.pobj o => o
  | JSVal.other => obj

/-- Result of one run of the composed beforeSave callback: the response
(its `success` object or `error` value) plus invocation counts for the
user `beforeSave` handler and the migrate handler. -/
structure BSResult where
  outcome : Except String PObject
  beforeSaveCalls : Nat
  migrateCalls : Nat
  deriving Repr

/-- The callback returned by `Migrator.prototype.getBeforeSave`
(lines 132-178), with the type's handlers already resolved. -/
def getBeforeSave (beforeSave : Option BeforeHandler)
    (migrate : Option MigrateHandler) (obj : PObject) : BSResult :=
  let s1 := bsStep1 beforeSave obj
  match s1.1 with
  | Except.error e => ⟨Except.error e, s1.2, 0⟩
  | Except.ok maybeNew =>
    let w := resolveWorking obj maybeNew
    match migrate with
    | none => ⟨Except.ok w, s1.2, 0⟩
    | some mig =>
      if w.migrationStatus == some IS_MIGRATED then
        ⟨Except.ok w, s1.2, 0⟩
      else if w.isNew then
        -- re-dirtied in afterSave so another beforeSave sees an objectId
        ⟨Except.ok w, s1.2, 0⟩
      else
        let w2 := w.setStatus
          (if w.migrationStatus == some NEEDS_SECOND_PASS
           then FINISHED_SECOND_PASS else IS_MIGRATED)
        match mig w2 with
        | Except.error e => ⟨Except.error e, s1.2, 1⟩
        | Except.ok _ => ⟨Except.ok w2, s1.2, 1⟩

/-! ## The composed afterSave trigger (`getAfterSave`, lines 181-201) -/

/-- `maybeTouch` (lines 186-192): on the first-ever persist of an object
of a type with a migrate handler, set `NEEDS_SECOND_PASS` and save again.
Returns the object handed to that second save, when one is issued. -/
def maybeTouch (migrate : Option MigrateHandler) (obj : PObject) :
    Option PObject :=
  if obj.existed || migrate.isNone then none
  else some (obj.setStatus NEEDS_SECOND_PASS)

/-- Result of the composed afterSave callback. -/
structure ASResult where
  outcome : Except String Unit
  afterSaveCalls : Nat
  secondSave : Option PObject
  deriving Repr

/-- The callback returned by `Migrator.prototype.getAfterSave`
(lines 194-200): the user handler and `maybeTouch` run in parallel, so
the touch save is issued whether or not the user handler fails. -/
def getAfterSave (afterSave : Option AfterSaveHandler)
    (migrate : Option MigrateHandler) (obj : PObject) : ASResult :=
  let touched := maybeTouch migrate obj
  match afterSave with
  | none => ⟨Except.ok (), 0, touched⟩
  | some h =>
    match h obj with
    | Except.error e => ⟨Except.error e, 1, touched⟩
    | Except.ok _ => ⟨Except.ok (), 1, touched⟩

/-! ## The composed beforeDelete trigger (`getBeforeDelete`, lines 203-220) -/

/-- The callback returned by `Migrator.prototype.getBeforeDelete`:
run the user handler (always, when present), then the migrate-on-delete
handler; any rejection takes the response's error path. -/
def getBeforeDelete (beforeDelete : Option BeforeHandler)
    (migrateDelete : Option MigrateHandler) (obj : PObject) :
    Except String Unit :=
  let s1 :=
    match beforeDelete with
    | none => Except.ok JSVal.other
    | some h => h obj ThisIsNotAResponseObject
  match s1 with
  | Except.error e => Except.error e
  | Except.ok _ =>
    match migrateDelete with
    | none => Except.ok ()
    | some m => m obj

/-! ## The sweep driver (`getImportJob` / `_migrateClass`, lines 230-317) -/

/-- The per-type record store the sweep queries: the persisted objects of
one class, in the store's default order. -/
abbrev Store := List PObject

/-- The filter of the sweep query (lines 284-288): `migrationStatus` not
contained in {IS_MIGRATED, NEEDS_SECOND_PASS, FINISHED_SECOND_PASS}.  An
absent field matches `notContainedIn`. -/
def unmigrated (o : PObject) : Bool :=
  !(o.migrationStatus == some IS_MIGRATED
    || o.migrationStatus == some NEEDS_SECOND_PASS
    || o.migrationStatus == some FINISHED_SECOND_PASS)

/-- The batch returned by `query.find()`: unmigrated records, limited to
`BATCH_SIZE`, in store order. -/
def sweepBatch (store : Store) : List PObject :=
  (store.filter unmigrated).take BATCH_SIZE

/-- Effect on the store of `object.set(MIGRATION_KEY, IS_MIGRATED)`
followed by `object.save()` for the fetched record with identifier `i`. -/
def saveMigrated (store : Store) (i : Option Nat) : Store :=
  store.map fun x =>
    if x.objectId = i then { x with migrationStatus := some IS_MIGRATED } else x

/-- One record's work inside a batch (lines 295-302): run the migration
handler on the fetched record, then save it with `IS_MIGRATED`.  A
failure of either step leaves the stored record untouched; `saveFails`
models store-side save errors by record identifier. -/
def applyMigration (migration : MigrateHandler) (saveFails : Option Nat → Bool)
    (store : Store) (r : PObject) : Store × Option String :=
  match migration r with
  | Except.error e => (store, some e)
  | Except.ok _ =>
    if saveFails r.objectId then (store, some ("save failed"))
    else (saveMigrated store r.objectId, none)

/-- The batch-level barrier `_Promise.when(migrations)` (line 303): every
record's chain runs to completion, successes commit their saves, and the
batch as a whole rejects when any single record failed. -/
def runBatch (migration : MigrateHandler) (saveFails : Option Nat → Bool) :
    Store → List PObject → Store × Option String
  | store, [] => (store, none)
  | store, r :: rs =>
    let p := applyMigration migration saveFails store r
    let q := runBatch migration saveFails p.1 rs
    (q.1, match p.2 with
          | some e => some e
          | none => q.2)

/-- Outcome of one per-type sweep: the evolved store, the fetched batch
sizes (one entry per issued query), and the promise outcome — the count
of migrated records, or the propagated rejection. -/
structure SweepResult where
  store : Store
  rounds : List Nat
  result : Except String Nat
  deriving Repr

/-- `Migrator.prototype._migrateClass` (lines 269-317).  `deadline` is the
JavaScript value the sweep actually received (the job passes none, hence
`undefined`); `fuel` bounds the recursion depth of the embedding and is
irrelevant whenever it exceeds the number of full batches. -/
def migrateClass (migration : MigrateHandler) (saveFails : Option Nat → Bool)
    (now : Int) (deadline : JsVal) : Nat → Store → SweepResult
  | 0, store =>
    -- fuel exhausted: identical round, but a full batch is not followed up
    if jsGt now deadline then ⟨store, [], Except.ok 0⟩
    else
      let batch := sweepBatch store
      let br := runBatch migration saveFails store batch
      match br.2 with
      | some e => ⟨br.1, [batch.length], Except.error e⟩
      | none => ⟨br.1, [batch.length], Except.ok batch.length⟩
  | fuel2 + 1, store =>
    if jsGt now deadline then ⟨store, [], Except.ok 0⟩
    else
      let batch := sweepBatch store
      let br := runBatch migration saveFails store batch
      match br.2 with
      | some e => ⟨br.1, [batch.length], Except.error e⟩
      | none =>
        if batch.length == BATCH_SIZE then
          let rest := migrateClass migration saveFails now deadline fuel2 br.1
          ⟨rest.store, batch.length :: rest.rounds,
            rest.result.map (fun accum => accum + batch.length)⟩
        else ⟨br.1, [batch.length], Except.ok batch.length⟩

/-- One entry of the migrator's `_triggers` map as the import job sees
it: the class name, its `migrateObject` handler when registered, and that
class's records in the external store. -/
structure ClassEntry where
  name : String
  migrateObject : Option MigrateHandler
  recs : Store

/-- Outcome of one import-job invocation: the evolved per-class stores,
every query round issued, the status-sink call (`success message` or
`error`), and the value the job's promise resolves to. -/
structure JobResult where
  entries : List ClassEntry
  rounds : List Nat
  statusCall : Except String String
  returned : Option Nat

/-- The `_.each` / promise chain of the job body (lines 239-252): classes
without a `migrateObject` handler are skipped; the others are swept
sequentially, accumulating `totalMigrated`; a rejection short-circuits
the remaining classes.  On line 250 the computed deadline is NOT passed
to `_migrateClass`, so every sweep runs with `deadline = undefined`. -/
def importJobLoop (saveFails : Option Nat → Bool) (now : Int) (fuel : Nat) :
    List ClassEntry → List ClassEntry × List Nat × Except String Nat
  | [] => ([], [], Except.ok 0)
  | e :: es =>
    match e.migrateObject with
    | none =>
      let rest := importJobLoop saveFails now fuel es
      (e :: rest.1, rest.2.1, rest.2.2)
    | some migration =>
      let res := migrateClass migration saveFails now JsVal.undef fuel e.recs
      match res.result with
      | Except.error err =>
        ({ e with recs := res.store } :: es, res.rounds, Except.error err)
      | Except.ok n =>
        let rest := importJobLoop saveFails now fuel es
        ({ e with recs := res.store } :: rest.1, res.rounds ++ rest.2.1,
          rest.2.2.map (fun t => t + n))

/-- The job returned by `Migrator.prototype.getImportJob` (lines
233-266): run every class, then report through the status sink — the
distinguished message when the grand total is zero — and resolve to the
total. -/
def getImportJob (saveFails : Option Nat → Bool) (now : Int)
    (entries : List ClassEntry) (fuel : Nat) : JobResult :=
  let run := importJobLoop saveFails now fuel entries
  match run.2.2 with
  | Except.error e => ⟨run.1, run.2.1, Except.error e, none⟩
  | Except.ok total =>
    ⟨run.1, run.2.1,
      Except.ok (if total == 0 then "Completed initial import!" else "Done with an import pass"),
      some total⟩

/-! ## The trigger registry (`_registerFn` / `handlers` / `exportTriggers`) -/

/-- The six trigger kinds of the migrator. -/
inductive TriggerType where
  | beforeSave | afterSave | beforeDelete | afterDelete | migrateObject | migrateDelete
  deriving Repr, DecidableEq

/-- The string the source interpolates into the duplicate error. -/
def ttName : TriggerType → String
  | TriggerType.beforeSave => "beforeSave"
  | TriggerType.afterSave => "afterSave"
  | TriggerType.beforeDelete => "beforeDelete"
  | TriggerType.afterDelete => "afterDelete"
  | TriggerType.migrateObject => "migrateObject"
  | TriggerType.migrateDelete => "migrateDelete"

/-- A type identifier as accepted by the registration API: either a
literal class-name string, or a constructor whose instances carry that
name as `className`. -/
inductive Klass where
  | str (s : String)
  | ctor (className : String)
  deriving Repr, DecidableEq

/-- `classString` (lines 27-33): a string is returned as is; for a
constructor the source instantiates it and reads `className`. -/
def classString : Klass → String
  | Klass.str s => s
  | Klass.ctor c => c

/-- The handler set stored for one class: at most one handler reference
(identified by a number) per trigger type. -/
abbrev HandlerSlots := List (TriggerType × Nat)

/-- The `_triggers` map: class name to handler set, in insertion order. -/
abbrev Triggers := List (String × HandlerSlots)

/-- Property-read `self._triggers[key]`. -/
def lookupTriggers : Triggers → String → Option HandlerSlots
  | [], _ => none
  | e :: rest, key => if e.1 = key then some e.2 else lookupTriggers rest key

/-- Property-write `self._triggers[key] = obj`. -/
def setTriggers : Triggers → String → HandlerSlots → Triggers
  | [], key, v => [(key, v)]
  | e :: rest, key, v =>
    if e.1 = key then (e.1, v) :: rest else e :: setTriggers rest key v

/-- Read `obj[triggerType]` from one handler set. -/
def findTrigger (slots : HandlerSlots) (tt : TriggerType) : Option Nat :=
  match slots.find? (fun p => p.1 == tt) with
  | some p => some p.2
  | none => none

/-- The function produced by `Migrator.prototype._registerFn`
(lines 83-94): throw on a duplicate (type, triggerType) pair, otherwise
record the handler under the canonical class string. -/
def registerFn (t : Triggers) (klass : Klass) (tt : TriggerType) (h : Nat) :
    Except String Triggers :=
  let key := classString klass
  let slots := (lookupTriggers t key).getD []
  if (findTrigger slots tt).isSome then
    Except.error ("Already registered a " ++ ttName tt ++ " trigger for " ++ key)
  else Except.ok (setTriggers t key ((tt, h) :: slots))

/-- `Migrator.prototype.handlers` (lines 96-98). -/
def handlers (t : Triggers) (klass : Klass) : HandlerSlots :=
  (lookupTriggers t (classString klass)).getD []

/-- Does this handler set define the given trigger type? -/
def hasTrigger (slots : HandlerSlots) (tt : TriggerType) : Bool :=
  (findTrigger slots tt).isSome

/-- The host registrations `exportTriggers` performs for one class
(lines 106-120): each composed callback is installed when its user
handler or the matching migrate handler is present. -/
def installsFor (klass : String) (slots : HandlerSlots) :
    List (String × TriggerType) :=
  (if hasTrigger slots TriggerType.beforeSave || hasTrigger slots TriggerType.migrateObject
   then [(klass, TriggerType.beforeSave)] else [])
  ++ (if hasTrigger slots TriggerType.afterSave || hasTrigger slots TriggerType.migrateObject
      then [(klass, TriggerType.afterSave)] else [])
  ++ (if hasTrigger slots TriggerType.beforeDelete || hasTrigger slots TriggerType.migrateDelete
      then [(klass, TriggerType.beforeDelete)] else [])
  ++ (if hasTrigger slots TriggerType.afterDelete
      then [(klass, TriggerType.afterDelete)] else [])

/-- `Migrator.prototype.exportTriggers` (lines 103-124): the composed
callbacks installed with the host, and the `"import"` job registration. -/
def exportTriggers (t : Triggers) : List (String × TriggerType) × Bool :=
  ((t.map (fun e => installsFor e.1 e.2)).flatten, true)

/-! ## Startup scripts: sequential registration, then export -/

/-- One statement of a startup script: a registration call, or the final
`exportTriggers()` call. -/
inductive StartupCmd where
  | register (klass : Klass) (tt : TriggerType) (h : Nat)
  | exportAll
  deriving Repr

/-- Process state during startup: the registry, the callbacks installed
with the host event system, and whether the import job was installed. -/
structure StartupState where
  triggers : Triggers
  installed : List (String × TriggerType)
  jobInstalled : Bool
  deriving Repr, DecidableEq

/-- The state before any startup statement ran. -/
def initState : StartupState := ⟨[], [], false⟩

/-- Run a startup script statement by statement.  A registration throw
aborts the script — the remaining statements, including any
`exportTriggers()` call, never execute — and surfaces the error. -/
def runStartup : StartupState → List StartupCmd → StartupState × Option String
  | st, [] => (st, none)
  | st, StartupCmd.register k tt h :: rest =>
    match registerFn st.triggers k tt h with
    | Except.error e => (st, some e)
    | Except.ok t2 => runStartup { st with triggers := t2 } rest
  | st, StartupCmd.exportAll :: rest =>
    let ex := exportTriggers st.triggers
    runStartup
      { st with installed := st.installed ++ ex.1,
                jobInstalled := st.jobInstalled || ex.2 } rest

/-! ## The first-save scenario of a brand-new record -/

/-- The host's view of the object right after its first persist: the
store assigned `newId`, dirty keys are cleared, and inside the creation's
`afterSave` the predicate `existed()` is still false. -/
def persistFirst (obj : PObject) (newId : Nat) : PObject :=
  { obj with objectId := some newId, dirtyKeys := [], existed := false }

/-- Trace of the composed callbacks around the first save of a record:
the first save's beforeSave run, its afterSave run (when the first save
persisted), and the beforeSave run of the follow-up save that
`maybeTouch` issues (when one was issued). -/
structure NewSaveScenario where
  firstPre : BSResult
  afterSaveRun : Option ASResult
  secondPre : Option BSResult
  deriving Repr

/-- The end-to-end first-save pipeline the host drives: composed
beforeSave, persistence, composed afterSave, and the beforeSave of the
second save issued by `maybeTouch`. -/
def firstSaveScenario (beforeSave : Option BeforeHandler)
    (afterSave : Option AfterSaveHandler) (migrate : Option MigrateHandler)
    (obj0 : PObject) (newId : Nat) : NewSaveScenario :=
  let r1 := getBeforeSave beforeSave migrate obj0
  match r1.outcome with
  | Except.error _ => ⟨r1, none, none⟩
  | Except.ok saved =>
    let persisted := persistFirst saved newId
    let a := getAfterSave afterSave migrate persisted
    match a.secondSave with
    | none => ⟨r1, some a, none⟩
    | some touched => ⟨r1, some a, some (getBeforeSave beforeSave migrate touched)⟩

/-! ## Concrete handlers and fixtures -/

/-- A migrate handler that always succeeds. -/
def migOk : MigrateHandler := fun _ => Except.ok ()

/-- A migrate handler that always rejects. -/
def migBoom : MigrateHandler := fun _ => Except.error ("boom")

/-- Store-side saves never fail. -/
def noSaveFail : Option Nat → Bool := fun _ => false

/-- A `beforeSave` handler that resolves with the request's object. -/
def idBeforeHandler : BeforeHandler := fun o _ => Except.ok (JSVal.pobj o)

/-- A handler written in the legacy callback style: it calls the response
object's `success` method instead of returning a promise. -/
def callbackStyleHandler : BeforeHandler := fun _ resp => resp.success ()

/-- A fresh, never-migrated, persisted record. -/
def freshRec (i : Nat) : PObject := ⟨some i, none, [], true⟩

/-- A record the sweep has migrated. -/
def doneRec (i : Nat) : PObject := ⟨some i, some IS_MIGRATED, [], true⟩

/-- A store whose first `m` records are migrated and whose next `n`
records (identifiers `m, …, m+n-1`) are still fresh. -/
def partialStore (m n : Nat) : Store :=
  (List.range m).map doneRec ++ (List.range' m n).map freshRec

/-- The `Widget` store of the 2500-record sweep scenario. -/
def widgetStore : Store := (List.range 2500).map freshRec

/-- An already-migrated record receiving an ordinary write. -/
def c2Obj : PObject := ⟨some 5, some IS_MIGRATED, ["name"], true⟩

/-- A record that finished its second pass, receiving an ordinary write. -/
def c2FinishedObj : PObject := ⟨some 5, some FINISHED_SECOND_PASS, ["name"], true⟩

/-- A brand-new record about to be saved for the first time. -/
def c3Obj : PObject := ⟨none, none, ["name"], false⟩

/-- A persisted record whose `migrationStatus` is absent. -/
def c4Obj : PObject := ⟨some 7, none, ["name"], true⟩

/-- A record in the middle of a bookkeeping save. -/
def c7Obj : PObject := ⟨some 3, some NEEDS_SECOND_PASS, [MIGRATION_KEY], true⟩

/-- A persisted record receiving an ordinary write. -/
def c10Obj : PObject := ⟨some 1, none, ["name"], true⟩

/-- A one-record store for the failure scenario. -/
def c6Store : Store := [freshRec 0]

/-- A one-record store for the deadline scenario. -/
def c1Store : Store := [freshRec 0]

/-- The one-class trigger map of the deadline scenario. -/
def c1Entry : ClassEntry := ⟨"Widget", some migOk, c1Store⟩

/-! ## Helper lemmas about the composed beforeSave -/

theorem bsStep1_none (obj : PObject) :
    bsStep1 none obj = (Except.ok JSVal.other, 0) := rfl

theorem bsStep1_skip (beforeSave : Option BeforeHandler) (obj : PObject)
    (h : bsSkipForBookkeeping obj = true) :
    bsStep1 beforeSave obj = (Except.ok JSVal.other, 0) := by
  cases beforeSave with
  | none => rfl
  | some f => simp [bsStep1, h]

/-- The composed beforeSave invokes the user handler exactly as often as
its first step does, on every path. -/
theorem getBeforeSave_beforeSaveCalls (beforeSave : Option BeforeHandler)
    (migrate : Option MigrateHandler) (obj : PObject) :
    (getBeforeSave beforeSave migrate obj).beforeSaveCalls = (bsStep1 beforeSave obj).2 := by
  unfold getBeforeSave
  rcases h : (bsStep1 beforeSave obj).1 with e | v
  · simp [h]
  · cases migrate with
    | none => simp [h]
    | some mig =>
      simp only [h]
      split
      · rfl
      · split
        · rfl
        · rcases hm : mig _ with e2 | u <;> simp [hm]

/-! ## Claim C2 -/

/-- C2 counterexample: the claim "for every record whose migrationStatus
is IS_MIGRATED or FINISHED_SECOND_PASS, no subsequent write through the
composed pre-write callback ever invokes the migrate handler again" is
false at a persisted record whose status is FINISHED_SECOND_PASS and
whose next write dirties an ordinary field: the composed beforeSave
invokes the migrate handler once more and advances the status to
IS_MIGRATED (the guard on line 149 of `migrate.js` tests only
IS_MIGRATED). -/
theorem c2_counterexample_finished_second_pass_remigrates :
    (getBeforeSave none (some migOk) c2FinishedObj).migrateCalls = 1 ∧
    (getBeforeSave none (some migOk) c2FinishedObj).outcome =
      Except.ok ⟨some 5, some IS_MIGRATED, ["name", "migrationStatus"], true⟩ :=
  ⟨rfl, rfl⟩

/-- C2 as amended: for every write whose working record — the request's
record, or the replacement the user beforeSave handler resolved with —
has migrationStatus IS_MIGRATED, the composed pre-write callback never
invokes the migrate handler.  (FINISHED_SECOND_PASS is not protected:
see the counterexample.) -/
theorem c2_is_migrated_never_remigrated (beforeSave : Option BeforeHandler)
    (migrate : Option MigrateHandler) (obj : PObject)
    (h : ∀ v, (bsStep1 beforeSave obj).1 = Except.ok v →
      (resolveWorking obj v).migrationStatus = some IS_MIGRATED) :
    (getBeforeSave beforeSave migrate obj).migrateCalls = 0 := by
  unfold getBeforeSave
  rcases hs : (bsStep1 beforeSave obj).1 with e | v
  · simp [hs]
  · have hw := h v hs
    cases migrate with
    | none => simp [hs]
    | some mig => simp [hs, hw]

/-- Witness for `c2_is_migrated_never_remigrated` at a concrete
already-migrated record with no user beforeSave handler. -/
theorem c2_is_migrated_never_remigrated_witness :
    (∀ v, (bsStep1 none c2Obj).1 = Except.ok v →
      (resolveWorking c2Obj v).migrationStatus = some IS_MIGRATED) ∧
    (getBeforeSave none (some migOk) c2Obj).migrateCalls = 0 := by
  have hv : ∀ v, (bsStep1 none c2Obj).1 = Except.ok v →
      (resolveWorking c2Obj v).migrationStatus = some IS_MIGRATED := by
    intro v hveq
    have hveq2 : Except.ok (ε := String) JSVal.other = Except.ok v := hveq
    cases hveq2
    rfl
  exact ⟨hv, c2_is_migrated_never_remigrated none (some migOk) c2Obj hv⟩

/-! ## Claim C4 -/

/-- C4: a previously persisted record with absent migrationStatus, of a
type with a migrate handler registered, has its status set to IS_MIGRATED
and the migrate handler invoked exactly once by the pre-write pass, and
the success path returns the record carrying the new status. -/
theorem c4_existing_unmigrated_migrated_once (beforeSave : Option BeforeHandler)
    (mig : MigrateHandler) (obj : PObject) (v : JSVal) (i : Nat)
    (h1 : (bsStep1 beforeSave obj).1 = Except.ok v)
    (h2 : (resolveWorking obj v).objectId = some i)
    (h3 : (resolveWorking obj v).migrationStatus = none)
    (h4 : mig ((resolveWorking obj v).setStatus IS_MIGRATED) = Except.ok ()) :
    (getBeforeSave beforeSave (some mig) obj).migrateCalls = 1 ∧
    (getBeforeSave beforeSave (some mig) obj).outcome =
      Except.ok ((resolveWorking obj v).setStatus IS_MIGRATED) ∧
    ((resolveWorking obj v).setStatus IS_MIGRATED).migrationStatus = some IS_MIGRATED := by
  have hnew : (resolveWorking obj v).isNew = false := by
    simp [PObject.isNew, h2]
  have hA : ((resolveWorking obj v).migrationStatus == some IS_MIGRATED) = false := by
    rw [h3]; rfl
  have hB : ((resolveWorking obj v).migrationStatus == some NEEDS_SECOND_PASS) = false := by
    rw [h3]; rfl
  refine ⟨?_, ?_, by simp [PObject.setStatus]⟩ <;>
  · unfold getBeforeSave
    simp only [h1, hA, hnew, hB, Bool.false_eq_true, if_false]
    rw [h4]

/-- Witness for `c4_existing_unmigrated_migrated_once` at a concrete
persisted, never-migrated record. -/
theorem c4_existing_unmigrated_migrated_once_witness :
    (bsStep1 none c4Obj).1 = Except.ok JSVal.other ∧
    (resolveWorking c4Obj JSVal.other).objectId = some 7 ∧
    (resolveWorking c4Obj JSVal.other).migrationStatus = none ∧
    (getBeforeSave none (some migOk) c4Obj).migrateCalls = 1 ∧
    (getBeforeSave none (some migOk) c4Obj).outcome =
      Except.ok ((resolveWorking c4Obj JSVal.other).setStatus IS_MIGRATED) :=
  ⟨rfl, rfl, rfl,
    (c4_existing_unmigrated_migrated_once none migOk c4Obj JSVal.other 7 rfl rfl rfl rfl).1,
    (c4_existing_unmigrated_migrated_once none migOk c4Obj JSVal.other 7 rfl rfl rfl rfl).2.1⟩

/-! ## Claim C7 -/

/-- C7: a write whose changed-field set is exactly the single field
`migrationStatus` never invokes the user's before-write handler. -/
theorem c7_bookkeeping_write_skips_user_handler (beforeSave : Option BeforeHandler)
    (migrate : Option MigrateHandler) (obj : PObject)
    (h : obj.dirtyKeys = [MIGRATION_KEY]) :
    (getBeforeSave beforeSave migrate obj).beforeSaveCalls = 0 := by
  rw [getBeforeSave_beforeSaveCalls]
  rw [bsStep1_skip]
  simp [bsSkipForBookkeeping, h]

/-- Witness for `c7_bookkeeping_write_skips_user_handler` at a concrete
bookkeeping save, with a user beforeSave handler registered. -/
theorem c7_bookkeeping_write_skips_user_handler_witness :
    c7Obj.dirtyKeys = [MIGRATION_KEY] ∧
    (getBeforeSave (some idBeforeHandler) (some migOk) c7Obj).beforeSaveCalls = 0 :=
  ⟨rfl, c7_bookkeeping_write_skips_user_handler (some idBeforeHandler) (some migOk) c7Obj rfl⟩

/-! ## Claim C10 -/

/-- Unfolding lemma: the composed beforeDelete with a user handler
present starts by running that handler on the pseudo response object. -/
theorem getBeforeDelete_some (bd : BeforeHandler) (md : Option MigrateHandler)
    (obj : PObject) :
    getBeforeDelete (some bd) md obj =
      match bd obj ThisIsNotAResponseObject with
      | Except.error e => Except.error e
      | Except.ok _ =>
        match md with
        | none => Except.ok ()
        | some m => m obj := rfl

/-- C10: the pseudo response object handed to user before-write and
before-delete handlers throws from both of its methods, so a handler
attempting the callback-style response protocol makes the composed
callback take its error path. -/
theorem c10_callback_style_handlers_fail (bs bd : BeforeHandler)
    (migrate migrateDelete : Option MigrateHandler) (obj : PObject)
    (hskip : bsSkipForBookkeeping obj = false)
    (hbs : bs obj ThisIsNotAResponseObject = ThisIsNotAResponseObject.success () ∨
           bs obj ThisIsNotAResponseObject = ThisIsNotAResponseObject.error ())
    (hbd : bd obj ThisIsNotAResponseObject = ThisIsNotAResponseObject.success () ∨
           bd obj ThisIsNotAResponseObject = ThisIsNotAResponseObject.error ()) :
    (∀ u : Unit, ThisIsNotAResponseObject.success u =
      Except.error ("The migration tool expects you to return promises, not use callbacks")) ∧
    (∀ u : Unit, ThisIsNotAResponseObject.error u =
      Except.error ("The migration tool expecgts you to return promises, not use callbacks")) ∧
    (∃ e, (getBeforeSave (some bs) migrate obj).outcome = Except.error e) ∧
    (∃ e, getBeforeDelete (some bd) migrateDelete obj = Except.error e) := by
  refine ⟨fun _ => rfl, fun _ => rfl, ?_, ?_⟩
  · have hs : bsStep1 (some bs) obj = (bs obj ThisIsNotAResponseObject, 1) := by
      simp [bsStep1, hskip]
    rcases hbs with h | h <;>
      exact ⟨_, by unfold getBeforeSave; rw [hs, h]; rfl⟩
  · rcases hbd with h | h <;>
      exact ⟨_, by rw [getBeforeDelete_some, h]; rfl⟩

/-- Witness for `c10_callback_style_handlers_fail`: a concrete handler
that invokes the pseudo response's `success` method. -/
theorem c10_callback_style_handlers_fail_witness :
    bsSkipForBookkeeping c10Obj = false ∧
    (∃ e, (getBeforeSave (some callbackStyleHandler) (some migOk) c10Obj).outcome =
      Except.error e) ∧
    (∃ e, getBeforeDelete (some callbackStyleHandler) (some migOk) c10Obj =
      Except.error e) :=
  ⟨rfl,
    (c10_callback_style_handlers_fail callbackStyleHandler callbackStyleHandler
      (some migOk) (some migOk) c10Obj rfl (Or.inl rfl) (Or.inl rfl)).2.2.1,
    (c10_callback_style_handlers_fail callbackStyleHandler callbackStyleHandler
      (some migOk) (some migOk) c10Obj rfl (Or.inl rfl) (Or.inl rfl)).2.2.2⟩

/-! ## Claim C3 -/

/-- On every path of the composed afterSave, the second save issued is
exactly the one `maybeTouch` decides on. -/
theorem getAfterSave_secondSave (afterSave : Option AfterSaveHandler)
    (migrate : Option MigrateHandler) (obj : PObject) :
    (getAfterSave afterSave migrate obj).secondSave = maybeTouch migrate obj := by
  unfold getAfterSave
  cases afterSave with
  | none => rfl
  | some h => rcases hr : h obj with e | u <;> simp [hr]

/-- C3: a brand-new record of a type with a migrate handler registered is
left unchanged by its first save's pre-write pass (no migrate call); the
post-write callback sets NEEDS_SECOND_PASS and issues a second save; and
that second save's pre-write pass sets FINISHED_SECOND_PASS, skips the
user beforeSave handler, and invokes the migrate handler exactly once —
one invocation in total across the whole pipeline. -/
theorem c3_new_record_migrated_on_second_pass (beforeSave : Option BeforeHandler)
    (afterSave : Option AfterSaveHandler) (mig : MigrateHandler)
    (obj0 : PObject) (newId : Nat) (v : JSVal)
    (h1 : (bsStep1 beforeSave obj0).1 = Except.ok v)
    (h2 : (resolveWorking obj0 v).objectId = none)
    (hmig : ∀ x, mig x = Except.ok ()) :
    (firstSaveScenario beforeSave afterSave (some mig) obj0 newId).firstPre.outcome =
      Except.ok (resolveWorking obj0 v) ∧
    (firstSaveScenario beforeSave afterSave (some mig) obj0 newId).firstPre.migrateCalls = 0 ∧
    (∃ a, (firstSaveScenario beforeSave afterSave (some mig) obj0 newId).afterSaveRun = some a ∧
      a.secondSave =
        some ((persistFirst (resolveWorking obj0 v) newId).setStatus NEEDS_SECOND_PASS)) ∧
    (firstSaveScenario beforeSave afterSave (some mig) obj0 newId).secondPre =
      some ⟨Except.ok (((persistFirst (resolveWorking obj0 v) newId).setStatus
          NEEDS_SECOND_PASS).setStatus FINISHED_SECOND_PASS), 0, 1⟩ ∧
    (((persistFirst (resolveWorking obj0 v) newId).setStatus
        NEEDS_SECOND_PASS).setStatus FINISHED_SECOND_PASS).migrationStatus =
      some FINISHED_SECOND_PASS := by
  have hnew : (resolveWorking obj0 v).isNew = true := by
    simp [PObject.isNew, h2]
  -- the first save's pre-write pass returns the working record unchanged
  have hr1 : getBeforeSave beforeSave (some mig) obj0 =
      ⟨Except.ok (resolveWorking obj0 v), (bsStep1 beforeSave obj0).2, 0⟩ := by
    unfold getBeforeSave
    simp only [h1]
    by_cases hA : ((resolveWorking obj0 v).migrationStatus == some IS_MIGRATED) = true
    · simp [hA]
    · simp [hA, hnew]
  -- the post-write pass touches the record and issues the second save
  have htouch : maybeTouch (some mig) (persistFirst (resolveWorking obj0 v) newId) =
      some ((persistFirst (resolveWorking obj0 v) newId).setStatus NEEDS_SECOND_PASS) := by
    simp [maybeTouch, persistFirst]
  -- facts about the touched record
  have hdirty : ((persistFirst (resolveWorking obj0 v) newId).setStatus
      NEEDS_SECOND_PASS).dirtyKeys = [MIGRATION_KEY] := by
    simp [persistFirst, PObject.setStatus]
  have hskip : bsSkipForBookkeeping ((persistFirst (resolveWorking obj0 v) newId).setStatus
      NEEDS_SECOND_PASS) = true := by
    simp [bsSkipForBookkeeping, hdirty]
  -- the second save's pre-write pass
  have hr2 : getBeforeSave beforeSave (some mig)
      ((persistFirst (resolveWorking obj0 v) newId).setStatus NEEDS_SECOND_PASS) =
      ⟨Except.ok (((persistFirst (resolveWorking obj0 v) newId).setStatus
          NEEDS_SECOND_PASS).setStatus FINISHED_SECOND_PASS), 0, 1⟩ := by
    unfold getBeforeSave
    rw [bsStep1_skip beforeSave _ hskip]
    simp [persistFirst, PObject.setStatus, PObject.isNew, resolveWorking, hmig,
      IS_MIGRATED, NEEDS_SECOND_PASS]
  have hS : firstSaveScenario beforeSave afterSave (some mig) obj0 newId =
      ⟨⟨Except.ok (resolveWorking obj0 v), (bsStep1 beforeSave obj0).2, 0⟩,
        some (getAfterSave afterSave (some mig)
          (persistFirst (resolveWorking obj0 v) newId)),
        some ⟨Except.ok (((persistFirst (resolveWorking obj0 v) newId).setStatus
          NEEDS_SECOND_PASS).setStatus FINISHED_SECOND_PASS), 0, 1⟩⟩ := by
    unfold firstSaveScenario
    rw [hr1]
    simp only []
    rw [getAfterSave_secondSave, htouch]
    simp only []
    rw [hr2]
  refine ⟨by rw [hS], by rw [hS], ?_, by rw [hS], by simp [PObject.setStatus]⟩
  exact ⟨getAfterSave afterSave (some mig) (persistFirst (resolveWorking obj0 v) newId),
    by rw [hS], by rw [getAfterSave_secondSave, htouch]⟩

/-- Witness for `c3_new_record_migrated_on_second_pass` at a concrete
brand-new record with no user beforeSave or afterSave handlers. -/
theorem c3_new_record_migrated_on_second_pass_witness :
    (bsStep1 none c3Obj).1 = Except.ok JSVal.other ∧
    (resolveWorking c3Obj JSVal.other).objectId = none ∧
    (firstSaveScenario none none (some migOk) c3Obj 42).firstPre.migrateCalls = 0 ∧
    (firstSaveScenario none none (some migOk) c3Obj 42).secondPre =
      some ⟨Except.ok (((persistFirst (resolveWorking c3Obj JSVal.other) 42).setStatus
          NEEDS_SECOND_PASS).setStatus FINISHED_SECOND_PASS), 0, 1⟩ :=
  ⟨rfl, rfl,
    (c3_new_record_migrated_on_second_pass none none migOk c3Obj 42 JSVal.other
      rfl rfl (fun _ => rfl)).2.1,
    (c3_new_record_migrated_on_second_pass none none migOk c3Obj 42 JSVal.other
      rfl rfl (fun _ => rfl)).2.2.2.1⟩

/-! ## Claims C8 and C9: registry helper lemmas -/

/-- Writing a key and reading it back yields the written handler set. -/
theorem lookupTriggers_setTriggers_self (t : Triggers) (key : String)
    (v : HandlerSlots) : lookupTriggers (setTriggers t key v) key = some v := by
  induction t with
  | nil => simp [setTriggers, lookupTriggers]
  | cons e rest ih =>
    by_cases h : e.1 = key
    · simp [setTriggers, lookupTriggers, h]
    · simp [setTriggers, lookupTriggers, h, ih]

/-- A startup script without an `exportTriggers()` statement installs
nothing with the host. -/
theorem runStartup_no_export (cmds : List StartupCmd) : ∀ st : StartupState,
    StartupCmd.exportAll ∉ cmds →
    (runStartup st cmds).1.installed = st.installed ∧
    (runStartup st cmds).1.jobInstalled = st.jobInstalled := by
  induction cmds with
  | nil => intro st _; exact ⟨rfl, rfl⟩
  | cons c rest ih =>
    intro st hmem
    have hc : c ≠ StartupCmd.exportAll := fun h => hmem (h ▸ List.mem_cons_self c rest)
    have hrest : StartupCmd.exportAll ∉ rest := fun h => hmem (List.mem_cons_of_mem c h)
    cases c with
    | register k tt h =>
      unfold runStartup
      rcases hr : registerFn st.triggers k tt h with e | t2
      · exact ⟨rfl, rfl⟩
      · exact ih _ hrest
    | exportAll => exact absurd rfl hc

/-- Equation lemma: one registration statement of a startup script. -/
theorem runStartup_cons_register (st : StartupState) (k : Klass) (tt : TriggerType)
    (h : Nat) (rest : List StartupCmd) :
    runStartup st (StartupCmd.register k tt h :: rest) =
      match registerFn st.triggers k tt h with
      | Except.error e => (st, some e)
      | Except.ok t2 => runStartup { st with triggers := t2 } rest := rfl

/-- Equation lemma: one `exportTriggers()` statement of a startup script. -/
theorem runStartup_cons_export (st : StartupState) (rest : List StartupCmd) :
    runStartup st (StartupCmd.exportAll :: rest) =
      runStartup
        { st with installed := st.installed ++ (exportTriggers st.triggers).1,
                  jobInstalled := st.jobInstalled || (exportTriggers st.triggers).2 }
        rest := rfl

/-- Running a startup script in two halves: when the first half runs
clean, the second resumes from its final state. -/
theorem runStartup_append (xs : List StartupCmd) : ∀ (st : StartupState)
    (ys : List StartupCmd), (runStartup st xs).2 = none →
    runStartup st (xs ++ ys) = runStartup (runStartup st xs).1 ys := by
  induction xs with
  | nil => intro st ys _; rfl
  | cons c rest ih =>
    intro st ys hclean
    cases c with
    | register k tt h =>
      rw [runStartup_cons_register] at hclean
      rw [List.cons_append, runStartup_cons_register, runStartup_cons_register]
      rcases hr : registerFn st.triggers k tt h with e | t2
      · rw [hr] at hclean; simp at hclean
      · simp only [hr] at hclean ⊢
        exact ih _ ys hclean
    | exportAll =>
      rw [runStartup_cons_export] at hclean
      rw [List.cons_append, runStartup_cons_export, runStartup_cons_export]
      exact ih _ ys hclean

/-- A registration statement that succeeds advances the registry. -/
theorem runStartup_register_ok (st : StartupState) (k : Klass) (tt : TriggerType)
    (h : Nat) (rest : List StartupCmd) (t2 : Triggers)
    (hr : registerFn st.triggers k tt h = Except.ok t2) :
    runStartup st (StartupCmd.register k tt h :: rest) =
      runStartup { st with triggers := t2 } rest := by
  rw [runStartup_cons_register, hr]

/-- A registration statement that throws aborts the startup script. -/
theorem runStartup_register_err (st : StartupState) (k : Klass) (tt : TriggerType)
    (h : Nat) (rest : List StartupCmd) (e : String)
    (hr : registerFn st.triggers k tt h = Except.error e) :
    runStartup st (StartupCmd.register k tt h :: rest) = (st, some e) := by
  rw [runStartup_cons_register, hr]

/-- C8: in a startup script that registers handlers before exporting, a
second registration for the same (type, trigger-kind) pair throws the
duplicate-registration error and aborts the script, so nothing — neither
the first nor the second handler, nor the job — is ever installed with
the host event system; the registry still holds the first handler (no
silent overwrite). -/
theorem c8_duplicate_registration_fails_fast (pre post : List StartupCmd)
    (klass : Klass) (tt : TriggerType) (h1 h2 : Nat)
    (hpre : (runStartup initState pre).2 = none)
    (hnoexp : StartupCmd.exportAll ∉ pre)
    (hfree : findTrigger (handlers (runStartup initState pre).1.triggers klass) tt = none) :
    (runStartup initState (pre ++ (StartupCmd.register klass tt h1 ::
        StartupCmd.register klass tt h2 :: post))).2 =
      some ("Already registered a " ++ ttName tt ++ " trigger for " ++ classString klass) ∧
    (runStartup initState (pre ++ (StartupCmd.register klass tt h1 ::
        StartupCmd.register klass tt h2 :: post))).1.installed = [] ∧
    (runStartup initState (pre ++ (StartupCmd.register klass tt h1 ::
        StartupCmd.register klass tt h2 :: post))).1.jobInstalled = false ∧
    findTrigger (handlers (runStartup initState (pre ++ (StartupCmd.register klass tt h1 ::
        StartupCmd.register klass tt h2 :: post))).1.triggers klass) tt = some h1 := by
  have hinst := runStartup_no_export pre initState hnoexp
  have happ := runStartup_append pre initState
    (StartupCmd.register klass tt h1 :: StartupCmd.register klass tt h2 :: post) hpre
  have hfree2 : findTrigger
      ((lookupTriggers (runStartup initState pre).1.triggers (classString klass)).getD [])
      tt = none := hfree
  have hreg1 : registerFn (runStartup initState pre).1.triggers klass tt h1 =
      Except.ok (setTriggers (runStartup initState pre).1.triggers (classString klass)
        ((tt, h1) :: (lookupTriggers (runStartup initState pre).1.triggers
          (classString klass)).getD [])) := by
    simp [registerFn, hfree2]
  have hlook : lookupTriggers (setTriggers (runStartup initState pre).1.triggers
      (classString klass) ((tt, h1) :: (lookupTriggers (runStartup initState pre).1.triggers
        (classString klass)).getD [])) (classString klass) =
      some ((tt, h1) :: (lookupTriggers (runStartup initState pre).1.triggers
        (classString klass)).getD []) :=
    lookupTriggers_setTriggers_self _ _ _
  have hreg2 : registerFn (setTriggers (runStartup initState pre).1.triggers
      (classString klass) ((tt, h1) :: (lookupTriggers (runStartup initState pre).1.triggers
        (classString klass)).getD [])) klass tt h2 =
      Except.error ("Already registered a " ++ ttName tt ++ " trigger for " ++
        classString klass) := by
    simp [registerFn, hlook, findTrigger]
  rw [happ, runStartup_register_ok _ _ _ _ _ _ hreg1,
    runStartup_register_err _ _ _ _ _ _ hreg2]
  refine ⟨rfl, ?_, ?_, ?_⟩
  · show (runStartup initState pre).1.installed = []
    rw [hinst.1]
    rfl
  · show (runStartup initState pre).1.jobInstalled = false
    rw [hinst.2]
    rfl
  · simp [handlers, hlook, findTrigger]

/-- Witness for `c8_duplicate_registration_fails_fast`: two beforeSave
registrations for `Widget`, followed by an `exportTriggers()` call the
script never reaches. -/
theorem c8_duplicate_registration_fails_fast_witness :
    (runStartup initState ([] ++ (StartupCmd.register (Klass.str "Widget")
        TriggerType.beforeSave 0 :: StartupCmd.register (Klass.str "Widget")
        TriggerType.beforeSave 1 :: [StartupCmd.exportAll]))).2 =
      some ("Already registered a beforeSave trigger for Widget") ∧
    (runStartup initState ([] ++ (StartupCmd.register (Klass.str "Widget")
        TriggerType.beforeSave 0 :: StartupCmd.register (Klass.str "Widget")
        TriggerType.beforeSave 1 :: [StartupCmd.exportAll]))).1.installed = [] ∧
    (runStartup initState ([] ++ (StartupCmd.register (Klass.str "Widget")
        TriggerType.beforeSave 0 :: StartupCmd.register (Klass.str "Widget")
        TriggerType.beforeSave 1 :: [StartupCmd.exportAll]))).1.jobInstalled = false := by
  have h := c8_duplicate_registration_fails_fast [] [StartupCmd.exportAll]
    (Klass.str "Widget") TriggerType.beforeSave 0 1 rfl (List.not_mem_nil _) rfl
  exact ⟨h.1, h.2.1, h.2.2.1⟩

/-! ## Claim C9 -/

/-- C9: registration and lookup are keyed by `classString`: the string
form and the constructor form of the same type name address the same
handler set, so registering the same trigger kind once under each form
raises the duplicate error, and `handlers` agrees on the two forms. -/
theorem c9_registration_keyed_by_class_string (t : Triggers) (s : String)
    (tt : TriggerType) (h1 h2 : Nat)
    (hfree : findTrigger (handlers t (Klass.str s)) tt = none) :
    (∀ k1 k2 : Klass, classString k1 = classString k2 → handlers t k1 = handlers t k2) ∧
    ∃ t2, registerFn t (Klass.str s) tt h1 = Except.ok t2 ∧
      registerFn t2 (Klass.ctor s) tt h2 =
        Except.error ("Already registered a " ++ ttName tt ++ " trigger for " ++ s) ∧
      handlers t2 (Klass.str s) = handlers t2 (Klass.ctor s) ∧
      findTrigger (handlers t2 (Klass.ctor s)) tt = some h1 := by
  have hfree2 : findTrigger ((lookupTriggers t s).getD []) tt = none := hfree
  refine ⟨fun k1 k2 h => by simp [handlers, h], ?_⟩
  refine ⟨setTriggers t s ((tt, h1) :: (lookupTriggers t s).getD []), ?_, ?_, rfl, ?_⟩
  · simp [registerFn, classString, hfree2]
  · simp [registerFn, classString, lookupTriggers_setTriggers_self, findTrigger]
  · simp [handlers, classString, lookupTriggers_setTriggers_self, findTrigger]

/-- Witness for `c9_registration_keyed_by_class_string`: an empty
registry, the type name `Widget` in both forms. -/
theorem c9_registration_keyed_by_class_string_witness :
    findTrigger (handlers [] (Klass.str "Widget")) TriggerType.migrateObject = none ∧
    ∃ t2, registerFn [] (Klass.str "Widget") TriggerType.migrateObject 3 = Except.ok t2 ∧
      registerFn t2 (Klass.ctor "Widget") TriggerType.migrateObject 4 =
        Except.error ("Already registered a migrateObject trigger for Widget") ∧
      handlers t2 (Klass.str "Widget") = handlers t2 (Klass.ctor "Widget") ∧
      findTrigger (handlers t2 (Klass.ctor "Widget")) TriggerType.migrateObject = some 3 :=
  ⟨rfl, (c9_registration_keyed_by_class_string [] "Widget"
    TriggerType.migrateObject 3 4 rfl).2⟩

/-! ## Claim C6 -/

/-- The fetched batch is a sublist of the store. -/
theorem sweepBatch_sublist (store : Store) : (sweepBatch store).Sublist store :=
  (List.take_sublist _ _).trans (List.filter_sublist _)

/-- A batch member is an unmigrated member of the store. -/
theorem mem_sweepBatch (store : Store) (r : PObject) (h : r ∈ sweepBatch store) :
    r ∈ store ∧ unmigrated r = true := by
  have h2 : r ∈ store.filter unmigrated := List.mem_of_mem_take h
  exact ⟨List.mem_of_mem_filter h2, List.of_mem_filter h2⟩

/-- A record whose migrate-or-save fails commits nothing and reports the
failure. -/
theorem applyMigration_of_fail (migration : MigrateHandler)
    (saveFails : Option Nat → Bool) (store : Store) (r : PObject)
    (h : (∃ e, migration r = Except.error e) ∨ saveFails r.objectId = true) :
    (applyMigration migration saveFails store r).1 = store ∧
    (applyMigration migration saveFails store r).2.isSome = true := by
  unfold applyMigration
  rcases h with ⟨e, he⟩ | hs
  · rw [he]; exact ⟨rfl, rfl⟩
  · rcases hm : migration r with e | u
    · exact ⟨rfl, rfl⟩
    · simp [hs]

/-- A batch containing a failing record rejects as a whole. -/
theorem runBatch_snd_isSome (migration : MigrateHandler)
    (saveFails : Option Nat → Bool) (batch : List PObject) :
    ∀ (store : Store) (r : PObject), r ∈ batch →
    ((∃ e, migration r = Except.error e) ∨ saveFails r.objectId = true) →
    (runBatch migration saveFails store batch).2.isSome = true := by
  induction batch with
  | nil => intro store r h; simp at h
  | cons x rs ih =>
    intro store r hmem hfail
    unfold runBatch
    rcases List.mem_cons.mp hmem with hhead | hr
    · have hfx := applyMigration_of_fail migration saveFails store r
        hfail
      rcases hp : (applyMigration migration saveFails store x).2 with _ | e
      · rw [← hhead] at hp
        rw [hp] at hfx
        simp at hfx
      · simp [hp]
    · have hq := ih (applyMigration migration saveFails store x).1 r hr hfail
      rcases hp : (applyMigration migration saveFails store x).2 with _ | e
      · simp [hp, hq]
      · simp [hp]

/-- Saving a different identifier leaves `r`'s stored entry in place. -/
theorem mem_saveMigrated_ne (store : Store) (i : Option Nat) (r : PObject)
    (hr : r ∈ store) (hne : r.objectId ≠ i) : r ∈ saveMigrated store i := by
  unfold saveMigrated
  have hfix : (fun x => if x.objectId = i
      then { x with migrationStatus := some IS_MIGRATED } else x) r = r := by
    simp [hne]
  rw [← hfix]
  exact List.mem_map_of_mem _ hr

/-- Through a whole batch, the stored entry of a record all of whose
same-identifier batch occurrences fail stays exactly as it was. -/
theorem runBatch_preserves_failed (migration : MigrateHandler)
    (saveFails : Option Nat → Bool) (batch : List PObject) :
    ∀ (store : Store) (r : PObject), r ∈ store →
    (∀ x ∈ batch, x.objectId = r.objectId →
      ((∃ e, migration x = Except.error e) ∨ saveFails x.objectId = true)) →
    r ∈ (runBatch migration saveFails store batch).1 := by
  induction batch with
  | nil => intro store r hr _; exact hr
  | cons x rs ih =>
    intro store r hr hall
    unfold runBatch
    have hstep : r ∈ (applyMigration migration saveFails store x).1 := by
      unfold applyMigration
      rcases hm : migration x with e | u
      · exact hr
      · by_cases hs : saveFails x.objectId = true
        · simp [hs]; exact hr
        · simp only [Bool.not_eq_true] at hs
          simp only [hs, Bool.false_eq_true, if_false]
          by_cases hid : x.objectId = r.objectId
          · rcases hall x (List.mem_cons_self x rs) hid with ⟨e, he⟩ | hsf
            · rw [hm] at he; cases he
            · rw [hsf] at hs; cases hs
          · exact mem_saveMigrated_ne store x.objectId r hr (fun hh => hid hh.symm)
    exact ih _ r hstep (fun y hy hid => hall y (List.mem_cons_of_mem x hy) hid)

/-- One-step equation for the job's per-class loop. -/
theorem importJobLoop_cons (saveFails : Option Nat → Bool) (now : Int) (fuel : Nat)
    (entry : ClassEntry) (es : List ClassEntry) :
    importJobLoop saveFails now fuel (entry :: es) =
      match entry.migrateObject with
      | none =>
        (entry :: (importJobLoop saveFails now fuel es).1,
          (importJobLoop saveFails now fuel es).2.1,
          (importJobLoop saveFails now fuel es).2.2)
      | some migration =>
        match (migrateClass migration saveFails now JsVal.undef fuel entry.recs).result with
        | Except.error err =>
          ({ entry with
              recs := (migrateClass migration saveFails now JsVal.undef fuel entry.recs).store }
            :: es,
            (migrateClass migration saveFails now JsVal.undef fuel entry.recs).rounds,
            Except.error err)
        | Except.ok n =>
          ({ entry with
              recs := (migrateClass migration saveFails now JsVal.undef fuel entry.recs).store }
            :: (importJobLoop saveFails now fuel es).1,
            (migrateClass migration saveFails now JsVal.undef fuel entry.recs).rounds
              ++ (importJobLoop saveFails now fuel es).2.1,
            (importJobLoop saveFails now fuel es).2.2.map (fun t => t + n)) := by
  rcases entry with ⟨name2, mo, recs⟩
  cases mo with
  | none => rfl
  | some migration =>
    simp only []
    rcases h : (migrateClass migration saveFails now JsVal.undef fuel recs).result with e | n
    · simp only [importJobLoop, h]
    · simp only [importJobLoop, h]

/-- C6: when the fetched batch of a per-type sweep contains a record
whose migrate handler or save fails, the whole batch rejects, the sweep
aborts right there (a single round, no skip-and-continue) with an error
that the job surfaces through the status sink's error path, and the
failed record's stored entry — status included — is untouched and still
satisfies the sweep query's filter, so the next pass re-selects it.
Because the sweep re-invokes itself on the updated store, every batch is
the first batch of some invocation, so quantifying over all stores covers
every batch. -/
theorem c6_single_failure_aborts_sweep (migration : MigrateHandler)
    (saveFails : Option Nat → Bool) (now : Int) (store : Store) (fuel : Nat)
    (klassName : String) (r : PObject)
    (hids : (store.map PObject.objectId).Nodup)
    (hr : r ∈ sweepBatch store)
    (hfail : (∃ e, migration r = Except.error e) ∨ saveFails r.objectId = true) :
    (∃ e, (migrateClass migration saveFails now JsVal.undef fuel store).result =
      Except.error e) ∧
    (migrateClass migration saveFails now JsVal.undef fuel store).rounds =
      [(sweepBatch store).length] ∧
    r ∈ (migrateClass migration saveFails now JsVal.undef fuel store).store ∧
    unmigrated r = true ∧
    (∃ e, (getImportJob saveFails now [⟨klassName, some migration, store⟩]
      fuel).statusCall = Except.error e) := by
  have hmem := mem_sweepBatch store r hr
  have hbatchids : ((sweepBatch store).map PObject.objectId).Nodup :=
    List.Nodup.sublist ((sweepBatch_sublist store).map PObject.objectId) hids
  have hall : ∀ x ∈ sweepBatch store, x.objectId = r.objectId →
      ((∃ e, migration x = Except.error e) ∨ saveFails x.objectId = true) := by
    intro x hx hid
    have hxr : x = r := List.inj_on_of_nodup_map hbatchids hx hr hid
    rw [hxr]
    exact hfail
  have hsnd := runBatch_snd_isSome migration saveFails (sweepBatch store) store r hr hfail
  rcases Option.isSome_iff_exists.mp hsnd with ⟨e, he⟩
  have hres : migrateClass migration saveFails now JsVal.undef fuel store =
      ⟨(runBatch migration saveFails store (sweepBatch store)).1,
        [(sweepBatch store).length], Except.error e⟩ := by
    cases fuel <;>
      simp only [migrateClass, show jsGt now JsVal.undef = false from rfl,
        Bool.false_eq_true, if_false, he]
  have hpres : r ∈ (runBatch migration saveFails store (sweepBatch store)).1 :=
    runBatch_preserves_failed migration saveFails (sweepBatch store) store r hmem.1 hall
  have hloop : importJobLoop saveFails now fuel [⟨klassName, some migration, store⟩] =
      ([⟨klassName, some migration,
          (runBatch migration saveFails store (sweepBatch store)).1⟩],
        [(sweepBatch store).length], Except.error e) := by
    rw [importJobLoop_cons]
    simp only [hres]
  refine ⟨⟨e, by rw [hres]⟩, by rw [hres], by rw [hres]; exact hpres, hmem.2, ⟨e, ?_⟩⟩
  unfold getImportJob
  rw [hloop]

/-- Witness for `c6_single_failure_aborts_sweep`: a one-record store
whose migrate handler always rejects. -/
theorem c6_single_failure_aborts_sweep_witness :
    (c6Store.map PObject.objectId).Nodup ∧
    freshRec 0 ∈ sweepBatch c6Store ∧
    migBoom (freshRec 0) = Except.error ("boom") ∧
    (∃ e, (migrateClass migBoom noSaveFail 0 JsVal.undef 1 c6Store).result =
      Except.error e) ∧
    freshRec 0 ∈ (migrateClass migBoom noSaveFail 0 JsVal.undef 1 c6Store).store ∧
    (∃ e, (getImportJob noSaveFail 0 [⟨"Widget", some migBoom, c6Store⟩]
      1).statusCall = Except.error e) := by
  have h := c6_single_failure_aborts_sweep migBoom noSaveFail 0 c6Store 1 "Widget"
    (freshRec 0) (by decide) (by decide) (Or.inl ⟨"boom", rfl⟩)
  exact ⟨by decide, by decide, rfl, h.1, h.2.2.1, h.2.2.2.2⟩

/-! ## Claim C1 -/

/-- C1 evidence: the job's deadline is dead code, so the sweep never
stops early.  `new Date() + MAXIMUM_DURATION` (line 234) is a date-string
concatenation that compares as `NaN` — `jsGt` is false against it — and
the call on line 250 does not even pass it, so inside `_migrateClass` the
guard compares `Date.now()` against `undefined`, which is always false.
Concretely: a job run at a time far beyond any intended deadline, over
one class with one unmigrated record, still issues a query and migrates
the record (rounds `[1]`, total 1), where the claim demands no query and
total 0.  The third conjunct shows that the guard in `_migrateClass`
would have worked had a numeric deadline been passed: with
`deadline = 870000` already in the past the sweep returns 0 rounds. -/
theorem c1_deadline_never_enforced :
    jsGt 2000000000000 (jobDeadline "Sat Oct 11 2026 12:00:00 GMT+0000 (UTC)") = false ∧
    jsGt 2000000000000 JsVal.undef = false ∧
    migrateClass migOk noSaveFail 2000000000000 (JsVal.num 870000) 3 c1Store =
      ⟨c1Store, [], Except.ok 0⟩ ∧
    (migrateClass migOk noSaveFail 2000000000000 JsVal.undef 3 c1Store).rounds = [1] ∧
    (migrateClass migOk noSaveFail 2000000000000 JsVal.undef 3 c1Store).result =
      Except.ok 1 ∧
    (getImportJob noSaveFail 2000000000000 [c1Entry] 3).rounds = [1] ∧
    (getImportJob noSaveFail 2000000000000 [c1Entry] 3).returned = some 1 := by
  exact ⟨by decide, rfl, rfl, rfl, rfl, rfl, rfl⟩

/-! ## Claim C5: the sweep over a store of fresh records -/

/-- Taking a prefix of an arithmetic range shortens the range. -/
theorem take_range2 (k : Nat) : ∀ (s n : Nat),
    (List.range' s n).take k = List.range' s (min k n) := by
  induction k with
  | zero => intro s n; simp
  | succ k ih =>
    intro s n
    cases n with
    | zero => simp
    | succ n =>
      rw [List.range'_succ, List.take_succ_cons, ih, Nat.succ_min_succ,
        List.range'_succ]

/-- The sweep query over a partially migrated store selects exactly the
fresh tail. -/
theorem filter_unmigrated_partialStore (m n : Nat) :
    (partialStore m n).filter unmigrated = (List.range' m n).map freshRec := by
  unfold partialStore
  rw [List.filter_append]
  have h1 : ((List.range m).map doneRec).filter unmigrated = [] := by
    rw [List.filter_eq_nil_iff]
    intro a ha
    rcases List.mem_map.mp ha with ⟨i, _, rfl⟩
    simp [unmigrated, doneRec, IS_MIGRATED]
  have h2 : ((List.range' m n).map freshRec).filter unmigrated =
      (List.range' m n).map freshRec := by
    rw [List.filter_eq_self]
    intro a ha
    rcases List.mem_map.mp ha with ⟨i, _, rfl⟩
    simp [unmigrated, freshRec]
  rw [h1, h2, List.nil_append]

/-- The fetched batch over a partially migrated store. -/
theorem sweepBatch_partialStore (m n : Nat) :
    sweepBatch (partialStore m n) =
      (List.range' m (min BATCH_SIZE n)).map freshRec := by
  unfold sweepBatch
  rw [filter_unmigrated_partialStore, ← List.map_take, take_range2]

/-- Saving the first fresh record moves the migrated boundary one to the
right. -/
theorem saveMigrated_partialStore (m n : Nat) :
    saveMigrated (partialStore m (n + 1)) (some m) = partialStore (m + 1) n := by
  unfold saveMigrated partialStore
  rw [List.map_append]
  have h1 : ((List.range m).map doneRec).map (fun x => if x.objectId = some m
      then { x with migrationStatus := some IS_MIGRATED } else x) =
      (List.range m).map doneRec := by
    rw [List.map_map]
    apply List.map_congr_left
    intro i hi
    have hne : i ≠ m := Nat.ne_of_lt (List.mem_range.mp hi)
    simp [doneRec, hne]
  have h2 : ((List.range' m (n + 1)).map freshRec).map (fun x => if x.objectId = some m
      then { x with migrationStatus := some IS_MIGRATED } else x) =
      doneRec m :: (List.range' (m + 1) n).map freshRec := by
    rw [List.range'_succ, List.map_cons, List.map_cons]
    have hhead : (if (freshRec m).objectId = some m
        then { freshRec m with migrationStatus := some IS_MIGRATED } else freshRec m) =
        doneRec m := by
      simp [freshRec, doneRec]
    have htail : ((List.range' (m + 1) n).map freshRec).map
        (fun x => if x.objectId = some m
          then { x with migrationStatus := some IS_MIGRATED } else x) =
        (List.range' (m + 1) n).map freshRec := by
      rw [List.map_map]
      apply List.map_congr_left
      intro i hi
      have hne : i ≠ m := by
        have := (List.mem_range'_1.mp hi).1
        omega
      simp [freshRec, hne]
    rw [hhead, htail]
  rw [h1, h2, List.range_succ, List.map_append]
  simp

/-- Running a clean batch of `k` fresh records migrates exactly those
records. -/
theorem runBatch_partialStore (k : Nat) : ∀ (m n : Nat), k ≤ n →
    runBatch migOk noSaveFail (partialStore m n) ((List.range' m k).map freshRec) =
      (partialStore (m + k) (n - k), none) := by
  induction k with
  | zero => intro m n _; simp [runBatch]
  | succ k ih =>
    intro m n h
    cases n with
    | zero => omega
    | succ n =>
      rw [List.range'_succ, List.map_cons]
      have happ : applyMigration migOk noSaveFail (partialStore m (n + 1)) (freshRec m) =
          (partialStore (m + 1) n, none) := by
        unfold applyMigration migOk noSaveFail
        simp [freshRec, saveMigrated_partialStore]
      unfold runBatch
      rw [happ]
      have hrec := ih (m + 1) n (Nat.succ_le_succ_iff.mp h)
      simp only [hrec]
      rw [show m + (k + 1) = m + 1 + k by omega, Nat.succ_sub_succ]

/-- A sweep over fewer than `BATCH_SIZE` fresh records finishes in one
round. -/
theorem migrateClass_partialStore_small (now : Int) (fuel m n : Nat)
    (h : n < BATCH_SIZE) :
    migrateClass migOk noSaveFail now JsVal.undef fuel (partialStore m n) =
      ⟨partialStore (m + n) 0, [n], Except.ok n⟩ := by
  have hmin : min BATCH_SIZE n = n := by omega
  have hbatch : sweepBatch (partialStore m n) = (List.range' m n).map freshRec := by
    rw [sweepBatch_partialStore, hmin]
  have hrun := runBatch_partialStore n m n (le_refl n)
  have hlen : ((List.range' m n).map freshRec).length = n := by simp
  have hne : (n == BATCH_SIZE) = false := by
    simp only [beq_eq_false_iff_ne, ne_eq]
    omega
  cases fuel with
  | zero =>
    simp only [migrateClass, show jsGt now JsVal.undef = false from rfl,
      Bool.false_eq_true, if_false, hbatch, hrun, hlen, Nat.sub_self]
  | succ f =>
    simp only [migrateClass, show jsGt now JsVal.undef = false from rfl,
      Bool.false_eq_true, if_false, hbatch, hrun, hlen, hne, Nat.sub_self]

/-- A sweep over at least `BATCH_SIZE` fresh records migrates one full
batch and continues on the rest with the same deadline value. -/
theorem migrateClass_partialStore_step (now : Int) (fuel m n : Nat)
    (h : BATCH_SIZE ≤ n) :
    migrateClass migOk noSaveFail now JsVal.undef (fuel + 1) (partialStore m n) =
      ⟨(migrateClass migOk noSaveFail now JsVal.undef fuel
          (partialStore (m + BATCH_SIZE) (n - BATCH_SIZE))).store,
        BATCH_SIZE :: (migrateClass migOk noSaveFail now JsVal.undef fuel
          (partialStore (m + BATCH_SIZE) (n - BATCH_SIZE))).rounds,
        (migrateClass migOk noSaveFail now JsVal.undef fuel
          (partialStore (m + BATCH_SIZE) (n - BATCH_SIZE))).result.map
          (fun accum => accum + BATCH_SIZE)⟩ := by
  have hmin : min BATCH_SIZE n = BATCH_SIZE := by omega
  have hbatch : sweepBatch (partialStore m n) =
      (List.range' m BATCH_SIZE).map freshRec := by
    rw [sweepBatch_partialStore, hmin]
  have hrun := runBatch_partialStore BATCH_SIZE m n h
  have hlen : ((List.range' m BATCH_SIZE).map freshRec).length = BATCH_SIZE := by simp
  simp only [migrateClass, show jsGt now JsVal.undef = false from rfl,
    Bool.false_eq_true, if_false, hbatch, hrun, hlen, beq_self_eq_true, if_true]

/-- The job's per-class loop over no classes. -/
theorem importJobLoop_nil (saveFails : Option Nat → Bool) (now : Int) (fuel : Nat) :
    importJobLoop saveFails now fuel [] = ([], [], Except.ok 0) := rfl

/-- A one-class job whose sweep succeeds: the store evolves, every round
is reported, and the status message distinguishes a zero total. -/
theorem getImportJob_single (saveFails : Option Nat → Bool) (now : Int) (fuel : Nat)
    (klassName : String) (mig : MigrateHandler) (store store2 : Store)
    (rds : List Nat) (n : Nat)
    (h : migrateClass mig saveFails now JsVal.undef fuel store =
      ⟨store2, rds, Except.ok n⟩) :
    getImportJob saveFails now [⟨klassName, some mig, store⟩] fuel =
      ⟨[⟨klassName, some mig, store2⟩], rds,
        Except.ok (if n == 0 then "Completed initial import!"
                   else "Done with an import pass"), some n⟩ := by
  unfold getImportJob
  rw [importJobLoop_cons]
  simp only [h]
  simp [importJobLoop_nil, Except.map]

/-- C5: with `BATCH_SIZE = 1000` and 2500 unmigrated `Widget` records,
one import-job run performs exactly three fetch/migrate/save rounds of
sizes 1000, 1000, 500, reports "Done with an import pass" and resolves to
a total of 2500; a second run over the resulting store finds 0 unmigrated
records and reports the distinguished "Completed initial import!" message
with total 0.  (The deadline plays no part: the job passes `undefined`.) -/
theorem c5_widget_sweep_2500 :
    getImportJob noSaveFail 0 [⟨"Widget", some migOk, widgetStore⟩] 2 =
      ⟨[⟨"Widget", some migOk, partialStore 2500 0⟩], [1000, 1000, 500],
        Except.ok ("Done with an import pass"), some 2500⟩ ∧
    getImportJob noSaveFail 0
        (getImportJob noSaveFail 0 [⟨"Widget", some migOk, widgetStore⟩] 2).entries 2 =
      ⟨[⟨"Widget", some migOk, partialStore 2500 0⟩], [0],
        Except.ok ("Completed initial import!"), some 0⟩ := by
  have hB : BATCH_SIZE = 1000 := rfl
  have hs1 := migrateClass_partialStore_step 0 1 0 2500 (by rw [hB]; omega)
  have hs2 := migrateClass_partialStore_step 0 0 1000 1500 (by rw [hB]; omega)
  have hs3 := migrateClass_partialStore_small 0 0 2000 500 (by rw [hB]; omega)
  rw [hB] at hs1 hs2
  norm_num at hs1 hs2 hs3
  have hw : widgetStore = partialStore 0 2500 := by
    unfold widgetStore partialStore
    simp [List.range_eq_range']
  have h1 : migrateClass migOk noSaveFail 0 JsVal.undef 2 widgetStore =
      ⟨partialStore 2500 0, [1000, 1000, 500], Except.ok 2500⟩ := by
    rw [hw, hs1, hs2, hs3]
    norm_num [Except.map]
  have hjob1 := getImportJob_single noSaveFail 0 2 "Widget" migOk widgetStore
    (partialStore 2500 0) [1000, 1000, 500] 2500 h1
  norm_num at hjob1
  have h2 : migrateClass migOk noSaveFail 0 JsVal.undef 2 (partialStore 2500 0) =
      ⟨partialStore 2500 0, [0], Except.ok 0⟩ := by
    have := migrateClass_partialStore_small 0 2 2500 0 (by rw [hB]; omega)
    simpa using this
  have hjob2 := getImportJob_single noSaveFail 0 2 "Widget" migOk (partialStore 2500 0)
    (partialStore 2500 0) [0] 0 h2
  norm_num at hjob2
  refine ⟨hjob1, ?_⟩
  rw [hjob1, show ((⟨[⟨"Widget", some migOk, partialStore 2500 0⟩], [1000, 1000, 500],
      Except.ok ("Done with an import pass"), some 2500⟩ : JobResult)).entries =
      [⟨"Widget", some migOk, partialStore 2500 0⟩] from rfl]
  exact hjob2
